import Mathlib

/-!
Shallow embedding of the permission-gated CRUD + audit-log core of
`database.py` (warehouse-operations desk application).

Conventions of the embedding:
* Each SQLAlchemy model becomes a Lean structure; the database becomes a
  `DB` structure holding one list per table plus the autoincrement
  counters (SQLite `AUTOINCREMENT` is modelled as an explicit
  `next_*_id` counter that every insert reads and bumps).
* The process-wide `_CurrentUser` singleton becomes an explicit
  `CurrentUser` value passed to every operation that reads it.
* Python exceptions become `Except String` with the exact message
  strings of the source; an `Except.error` result means the `with
  get_session()` block closed without committing, so the persisted
  state is the unchanged input `DB`.
* `datetime.utcnow()` becomes an explicit `now : DateTime` argument.
* The possibility that the audit-log INSERT itself fails (store
  unavailable) is modelled by a boolean oracle `auditFalha` threaded
  into `salvar_auditoria`; the source absorbs that failure inside
  `salvar_auditoria` (returning 0) and additionally wraps every call
  site in `try: ... except: pass`.
* Python string methods `.strip()`, `.lower()`, `.upper()` are modelled
  character-wise on the underlying `List Char` (ASCII case folding;
  the letters appearing in the relevant literals are ASCII).
-/

deriving instance DecidableEq for Except

namespace SqlApp

/-- ASCII lowering of one character, modelling Python `str.lower` on the
ASCII subset actually used by `database.py`'s literals. -/
def asciiLower (c : Char) : Char :=
  if 'A' ≤ c ∧ c ≤ 'Z' then Char.ofNat (c.toNat + 32) else c

/-- ASCII raising of one character, modelling Python `str.upper` on the
ASCII subset actually used by `database.py`'s literals. -/
def asciiUpper (c : Char) : Char :=
  if 'a' ≤ c ∧ c ≤ 'z' then Char.ofNat (c.toNat - 32) else c

/-- Whitespace recognised by Python `str.strip` (ASCII subset). -/
def pyIsSpace (c : Char) : Bool :=
  c = ' ' ∨ c = '\t' ∨ c = '\n' ∨ c = '\r' ∨ c = '\x0b' ∨ c = '\x0c'

/-- Python `s.lower()` (ASCII case folding). -/
def pyLower (s : String) : String := ⟨s.data.map asciiLower⟩

/-- Python `s.upper()` (ASCII case folding). -/
def pyUpper (s : String) : String := ⟨s.data.map asciiUpper⟩

/-- Python `s.strip()`: drop leading and trailing whitespace. -/
def pyStrip (s : String) : String :=
  ⟨((s.data.dropWhile pyIsSpace).reverse.dropWhile pyIsSpace).reverse⟩

/-- The recurring normalization
`observacao.strip().upper() if observacao.strip() != "" else None`. -/
def normObs (v : String) : Option String :=
  if pyStrip v ≠ "" then some (pyUpper (pyStrip v)) else none

/-- List prefix test used to model SQL `LIKE '%sub%'` containment. -/
def isPrefListOf (needle hay : List Char) : Bool :=
  match needle, hay with
  | [], _ => true
  | _ :: _, [] => false
  | n :: ns, h :: hs => n = h ∧ isPrefListOf ns hs

/-- Substring containment over char lists. -/
def containsSubList (needle hay : List Char) : Bool :=
  match hay with
  | [] => isPrefListOf needle []
  | _ :: hs => isPrefListOf needle hay ∨ containsSubList needle hs

/-- Model of `lower(motivo) LIKE '%' || sub || '%'` for a pattern-free
`sub`: case-insensitive substring containment. -/
def containsSub (hay needle : String) : Bool :=
  containsSubList (pyLower needle).data (pyLower hay).data

/-- Calendar dates as stored in SQL `DATE` columns (`datetime.date`). -/
structure PyDate where
  year : Nat
  month : Nat
  day : Nat
deriving Repr, DecidableEq

/-- Timestamps as stored in SQL `DATETIME` columns (`datetime.datetime`,
naive UTC as produced by `datetime.utcnow`). -/
structure DateTime where
  year : Nat
  month : Nat
  day : Nat
  hour : Nat
  minute : Nat
  second : Nat
  micro : Nat
deriving Repr, DecidableEq

/-- Monotone encoding of a date; for in-range fields (month ≤ 12,
day ≤ 31) comparing keys agrees with Python's field-lexicographic
`date` comparison. -/
def dateKey (d : PyDate) : Nat :=
  (d.year * 13 + d.month) * 32 + d.day

/-- Monotone encoding of a timestamp; for in-range fields comparing keys
agrees with Python's field-lexicographic `datetime` comparison. -/
def dtKey (t : DateTime) : Nat :=
  (((((t.year * 13 + t.month) * 32 + t.day) * 24 + t.hour) * 60
      + t.minute) * 60 + t.second) * 1000000 + t.micro

/-- Gregorian leap-year rule (as validated by `datetime`). -/
def isLeap (y : Nat) : Bool :=
  (y % 4 = 0 ∧ y % 100 ≠ 0) ∨ y % 400 = 0

/-- Days in a month (as validated by `datetime`). -/
def daysInMonth (y m : Nat) : Nat :=
  if m = 2 then (if isLeap y then 29 else 28)
  else if m = 4 ∨ m = 6 ∨ m = 9 ∨ m = 11 then 30
  else 31

/-- Value of a non-empty all-digit char list. -/
def digitsToNat? (cs : List Char) : Option Nat :=
  if cs ≠ [] ∧ cs.all Char.isDigit then
    some (cs.foldl (fun a c => a * 10 + (c.toNat - 48)) 0)
  else none

/-- Model of `datetime.date.fromisoformat` restricted to the
`YYYY-MM-DD` shape used throughout `database.py` (any other input,
including calendar-invalid dates, raises `ValueError`, i.e. `none`). -/
def date_fromisoformat (s : String) : Option PyDate :=
  match s.data with
  | [y1, y2, y3, y4, d1, m1, m2, d2, a1, a2] =>
    if d1 = '-' ∧ d2 = '-' then
      match digitsToNat? [y1, y2, y3, y4], digitsToNat? [m1, m2],
            digitsToNat? [a1, a2] with
      | some y, some m, some d =>
        if 1 ≤ y ∧ y ≤ 9999 ∧ 1 ≤ m ∧ m ≤ 12 ∧ 1 ≤ d ∧ d ≤ daysInMonth y m
        then some ⟨y, m, d⟩ else none
      | _, _, _ => none
    else none
  | _ => none

/-- Parse `HH:MM:SS` into hour/minute/second. -/
def time_fromChars (cs : List Char) : Option (Nat × Nat × Nat) :=
  match cs with
  | [h1, h2, c1, m1, m2, c2, s1, s2] =>
    if c1 = ':' ∧ c2 = ':' then
      match digitsToNat? [h1, h2], digitsToNat? [m1, m2],
            digitsToNat? [s1, s2] with
      | some h, some mi, some s =>
        if h ≤ 23 ∧ mi ≤ 59 ∧ s ≤ 59 then some (h, mi, s) else none
      | _, _, _ => none
    else none
  | _ => none

/-- Model of `datetime.datetime.fromisoformat` restricted to the two
shapes used by this code base: a bare `YYYY-MM-DD` date (midnight) and
`YYYY-MM-DD HH:MM:SS` / `YYYY-MM-DDTHH:MM:SS`. Any other input is
`none` (a `ValueError` in Python). -/
def datetime_fromisoformat (s : String) : Option DateTime :=
  if s.data.length = 10 then
    (date_fromisoformat s).map fun d => ⟨d.year, d.month, d.day, 0, 0, 0, 0⟩
  else if s.data.length = 19 then
    match s.data.drop 10 with
    | sep :: timePart =>
      if sep = 'T' ∨ sep = ' ' then
        match date_fromisoformat ⟨s.data.take 10⟩, time_fromChars timePart with
        | some d, some (h, mi, sec) =>
          some ⟨d.year, d.month, d.day, h, mi, sec, 0⟩
        | _, _ => none
      else none
    | [] => none
  else none

/-! ### Data model (the SQLAlchemy models of `database.py`) -/

/-- Row of table `usuarios` (`UserModel`). -/
structure User where
  id : Nat
  username : String
  senha_hash : String
  tipo : String
  created_at : DateTime
deriving Repr, DecidableEq

/-- Row of table `registros` (`RegistroModel`, the Blocked-Item Record). -/
structure Registro where
  id : Nat
  item : Int
  quantidade : Int
  motivo : String
  setor_responsavel : String
  usuario : Option String
  usuario_id : Option Nat
  created_at : DateTime
deriving Repr, DecidableEq

/-- Row of table `MONITORAMENTO` (`MonitoramentoModel`). -/
structure Monitoramento where
  id : Nat
  onda : String
  carga : String
  container : String
  responsavel : String
  setor : String
  observacao : Option String
  usuario : Option String
  created_at : DateTime
deriving Repr, DecidableEq

/-- Row of table `ALMOXAFIRE` (`AlmoxafireModel`). -/
structure Almoxafire where
  id : Nat
  setor : String
  turno : String
  matricula : Int
  responsavel : String
  insumo : String
  quantidade : Int
  observacao : Option String
  usuario : Option String
  created_at : DateTime
deriving Repr, DecidableEq

/-- Row of table `EPIS` (`EpiModel`). -/
structure Epi where
  id : Nat
  matricula : Int
  setor : String
  turno : String
  primeira : String
  data_ref : PyDate
  responsavel : Int
  observacao : Option String
  usuario : Option String
  created_at : DateTime
deriving Repr, DecidableEq

/-- Row of table `EPIS_ITENS` (`EpiItemModel`); the `Numeric(14,2)`
money columns are modelled as rationals. -/
structure EpiItem where
  id : Nat
  epi_id : Nat
  codigo : String
  produto : String
  quantidade : Int
  uon : Option String
  valor_unit : Option ℚ
  valor_total : Option ℚ
deriving Repr, DecidableEq

/-- Row of table `AUDIT_LOGS` (`AuditLogModel`). -/
structure AuditLog where
  id : Nat
  usuario : Option String
  transacao : String
  tipo : String
  created_at : DateTime
deriving Repr, DecidableEq

/-- The persisted database state: one list per table (insertion order)
plus the autoincrement counters. -/
structure DB where
  usuarios : List User
  registros : List Registro
  monitoramento : List Monitoramento
  almoxafire : List Almoxafire
  epis : List Epi
  epis_itens : List EpiItem
  audit_logs : List AuditLog
  next_user_id : Nat
  next_registro_id : Nat
  next_monitoramento_id : Nat
  next_almoxafire_id : Nat
  next_epi_id : Nat
  next_epi_item_id : Nat
  next_audit_id : Nat
deriving Repr, DecidableEq

/-- The `_CurrentUser` process-wide singleton: authenticated username,
numeric id and tipo (`"ADMINISTRADOR"` or `"USUARIO"`), all `None` when
logged out. -/
structure CurrentUser where
  username : Option String
  user_id : Option Nat
  tipo : Option String
deriving Repr, DecidableEq

/-- `session.get(RegistroModel, id)`. -/
def findRegistro (db : DB) (id : Nat) : Option Registro :=
  db.registros.find? (fun r => r.id = id)

/-- `session.get(MonitoramentoModel, id)`. -/
def findMonitoramento (db : DB) (id : Nat) : Option Monitoramento :=
  db.monitoramento.find? (fun r => r.id = id)

/-- `session.get(AlmoxafireModel, id)`. -/
def findAlmoxafire (db : DB) (id : Nat) : Option Almoxafire :=
  db.almoxafire.find? (fun r => r.id = id)

/-- `session.get(EpiModel, id)`. -/
def findEpi (db : DB) (id : Nat) : Option Epi :=
  db.epis.find? (fun r => r.id = id)

/-- `session.query(UserModel).filter_by(username=...).first()`. -/
def findUser (db : DB) (username : String) : Option User :=
  db.usuarios.find? (fun u => u.username = username)

/-- UPDATE of the row with the given primary key. -/
def updateRegistroById (rs : List Registro) (id : Nat) (novo : Registro) :
    List Registro :=
  rs.map fun r => if r.id = id then novo else r

/-- UPDATE of the row with the given primary key. -/
def updateMonitoramentoById (rs : List Monitoramento) (id : Nat)
    (novo : Monitoramento) : List Monitoramento :=
  rs.map fun r => if r.id = id then novo else r

/-- UPDATE of the row with the given primary key. -/
def updateAlmoxafireById (rs : List Almoxafire) (id : Nat)
    (novo : Almoxafire) : List Almoxafire :=
  rs.map fun r => if r.id = id then novo else r

/-! ### Audit log (`salvar_auditoria` and the call-site wrapper) -/

/-- `salvar_auditoria(transacao=..., tipo=...)`: normalizes the inputs,
raises on empty transacao/tipo, coerces unknown kinds to `"consulta"`,
and appends an `AUDIT_LOGS` row.  The audit-store failure oracle
`auditFalha` makes the INSERT/commit fail; the source catches that
exception internally and returns 0 with nothing persisted. -/
def salvar_auditoria (cu : CurrentUser) (now : DateTime) (auditFalha : Bool)
    (db : DB) (transacao tipo : String) : Except String (DB × Nat) :=
  let transacao := pyStrip transacao
  let tipo := pyLower (pyStrip tipo)
  if transacao = "" ∨ tipo = "" then
    .error "transacao/tipo obrigatórios"
  else
    let tipo :=
      if ["input", "output", "consulta", "alteração", "alteracao"].contains tipo
      then tipo else "consulta"
    let tipo := if tipo = "alteracao" then "alteração" else tipo
    if auditFalha then .ok (db, 0)
    else
      let id := db.next_audit_id
      .ok ({ db with
              audit_logs := db.audit_logs ++
                [⟨id, cu.username, transacao, tipo, now⟩],
              next_audit_id := id + 1 }, id)

/-- The `try: salvar_auditoria(...) except Exception: pass` wrapper that
every business operation places around its audit call. -/
def auditoriaSilenciosa (cu : CurrentUser) (now : DateTime)
    (auditFalha : Bool) (db : DB) (transacao tipo : String) : DB :=
  match salvar_auditoria cu now auditFalha db transacao tipo with
  | .ok (db', _) => db'
  | .error _ => db

/-! ### Inserts -/

/-- `salvar_registro(item=..., quantidade=..., motivo=...,
setor_responsavel=...)`: inserts a `registros` row stamped with the
current user and returns the generated id.  The source performs no
field validation here. -/
def salvar_registro (cu : CurrentUser) (now : DateTime) (auditFalha : Bool)
    (db : DB) (item quantidade : Int) (motivo setor_responsavel : String) :
    DB × Nat :=
  let id := db.next_registro_id
  let modelo : Registro :=
    ⟨id, item, quantidade, motivo, setor_responsavel, cu.username,
      cu.user_id, now⟩
  let db1 := { db with registros := db.registros ++ [modelo],
                       next_registro_id := id + 1 }
  let db2 := auditoriaSilenciosa cu now auditFalha db1 "Bloqueado" "input"
  (db2, id)

/-- `salvar_almoxafire(...)`: normalizes (strip/upper), validates the
required fields and positivity of quantidade/matricula, inserts an
`ALMOXAFIRE` row and returns the generated id.  The `int(...)`
conversions of the source cannot fail here because the arguments are
already integers. -/
def salvar_almoxafire (cu : CurrentUser) (now : DateTime)
    (auditFalha : Bool) (db : DB) (setor turno : String)
    (matricula : Int) (responsavel insumo : String) (quantidade : Int)
    (observacao : Option String) : Except String (DB × Nat) :=
  let setor := pyUpper (pyStrip setor)
  let turno := pyStrip turno
  let responsavel := pyUpper (pyStrip responsavel)
  let insumo := pyStrip insumo
  let observacao := match observacao with
    | some o => normObs o
    | none => none
  if setor = "" ∨ turno = "" ∨ responsavel = "" ∨ insumo = "" ∨
      quantidade ≤ 0 ∨ matricula ≤ 0 then
    .error "Campos obrigatórios ausentes em Almoxafire"
  else
    let id := db.next_almoxafire_id
    let obj : Almoxafire :=
      ⟨id, setor, turno, matricula, responsavel, insumo, quantidade,
        observacao, cu.username, now⟩
    let db1 := { db with almoxafire := db.almoxafire ++ [obj],
                         next_almoxafire_id := id + 1 }
    let db2 := auditoriaSilenciosa cu now auditFalha db1 "Almoxarifado" "input"
    .ok (db2, id)

/-! ### Permission-gated edits and deletes -/

/-- The Authorization Rule as the spec words it:
`authorize_mutation(record_owner, current_user)` is
`current_user.role == ADMINISTRATOR OR record_owner ==
current_user.username`. -/
def authorize_mutation (record_owner : Option String)
    (cu : CurrentUser) : Prop :=
  cu.tipo = some "ADMINISTRADOR" ∨ record_owner = cu.username

instance (o : Option String) (cu : CurrentUser) :
    Decidable (authorize_mutation o cu) := by
  unfold authorize_mutation; infer_instance

/-- `editar_registro(registro_id, quantidade=None, setor_responsavel=None)`:
edits quantity/sector of a `registros` row under the owner-or-admin
gate; returns `True` only when some field was supplied and applied. -/
def editar_registro (cu : CurrentUser) (now : DateTime) (auditFalha : Bool)
    (db : DB) (registro_id : Nat) (quantidade : Option Int)
    (setor_responsavel : Option String) : Except String (DB × Bool) :=
  match findRegistro db registro_id with
  | none => .ok (db, false)
  | some reg =>
    if cu.tipo ≠ some "ADMINISTRADOR" ∧ reg.usuario ≠ cu.username then
      .ok (db, false)
    else
      let (reg1, alterado1) := match quantidade with
        | some q => ({ reg with quantidade := q }, true)
        | none => (reg, false)
      let (reg2, alterado) := match setor_responsavel with
        | some s => ({ reg1 with setor_responsavel := s }, true)
        | none => (reg1, alterado1)
      if alterado then
        let db1 := { db with
          registros := updateRegistroById db.registros registro_id reg2 }
        let db2 := auditoriaSilenciosa cu now auditFalha db1 "Bloqueado"
          "alteração"
        .ok (db2, true)
      else .ok (db, false)

/-- `excluir_registro(registro_id)`: deletes a `registros` row under the
owner-or-admin gate. -/
def excluir_registro (cu : CurrentUser) (now : DateTime) (auditFalha : Bool)
    (db : DB) (registro_id : Nat) : Except String (DB × Bool) :=
  match findRegistro db registro_id with
  | none => .ok (db, false)
  | some reg =>
    if cu.tipo ≠ some "ADMINISTRADOR" ∧ reg.usuario ≠ cu.username then
      .ok (db, false)
    else
      let db1 := { db with
        registros := db.registros.filter (fun r => r.id ≠ registro_id) }
      let db2 := auditoriaSilenciosa cu now auditFalha db1 "Bloqueado"
        "alteração"
      .ok (db2, true)

/-- `editar_monitoramento(monitoramento_id, responsavel=None, setor=None,
observacao=None)` under the owner-or-admin gate. -/
def editar_monitoramento (cu : CurrentUser) (now : DateTime)
    (auditFalha : Bool) (db : DB) (monitoramento_id : Nat)
    (responsavel setor observacao : Option String) :
    Except String (DB × Bool) :=
  match findMonitoramento db monitoramento_id with
  | none => .ok (db, false)
  | some reg =>
    if cu.tipo ≠ some "ADMINISTRADOR" ∧ reg.usuario ≠ cu.username then
      .ok (db, false)
    else
      let (reg1, alterado1) := match responsavel with
        | some v => ({ reg with responsavel := pyUpper (pyStrip v) }, true)
        | none => (reg, false)
      let (reg2, alterado2) := match setor with
        | some v => ({ reg1 with setor := pyStrip v }, true)
        | none => (reg1, alterado1)
      let (reg3, alterado) := match observacao with
        | some v => ({ reg2 with observacao := some v }, true)
        | none => (reg2, alterado2)
      if alterado then
        let db1 := { db with monitoramento :=
          updateMonitoramentoById db.monitoramento monitoramento_id reg3 }
        let db2 := auditoriaSilenciosa cu now auditFalha db1 "Monitoramento"
          "alteração"
        .ok (db2, true)
      else .ok (db, false)

/-- `excluir_monitoramento(monitoramento_id)` under the owner-or-admin
gate. -/
def excluir_monitoramento (cu : CurrentUser) (now : DateTime)
    (auditFalha : Bool) (db : DB) (monitoramento_id : Nat) :
    Except String (DB × Bool) :=
  match findMonitoramento db monitoramento_id with
  | none => .ok (db, false)
  | some reg =>
    if cu.tipo ≠ some "ADMINISTRADOR" ∧ reg.usuario ≠ cu.username then
      .ok (db, false)
    else
      let db1 := { db with monitoramento :=
        db.monitoramento.filter (fun r => r.id ≠ monitoramento_id) }
      let db2 := auditoriaSilenciosa cu now auditFalha db1 "Monitoramento"
        "alteração"
      .ok (db2, true)

/-- The `if setor is not None:` block of `editar_almoxafire`: applies
the field to the in-session row and marks it `alterado`. -/
def almoxSetSetor (p : Almoxafire × Bool) (setor : Option String) :
    Almoxafire × Bool :=
  match setor with
  | some v => ({ p.1 with setor := pyUpper (pyStrip v) }, true)
  | none => p

/-- The `if turno is not None:` block of `editar_almoxafire`. -/
def almoxSetTurno (p : Almoxafire × Bool) (turno : Option String) :
    Almoxafire × Bool :=
  match turno with
  | some v => ({ p.1 with turno := pyStrip v }, true)
  | none => p

/-- The `if matricula is not None:` block of `editar_almoxafire`; the
`int(...)` conversion cannot fail on an integer argument. -/
def almoxSetMatricula (p : Almoxafire × Bool) (matricula : Option Int) :
    Almoxafire × Bool :=
  match matricula with
  | some m => ({ p.1 with matricula := m }, true)
  | none => p

/-- The `if responsavel is not None:` block of `editar_almoxafire`. -/
def almoxSetResponsavel (p : Almoxafire × Bool)
    (responsavel : Option String) : Almoxafire × Bool :=
  match responsavel with
  | some v => ({ p.1 with responsavel := pyUpper (pyStrip v) }, true)
  | none => p

/-- The `if insumo is not None:` block of `editar_almoxafire`. -/
def almoxSetInsumo (p : Almoxafire × Bool) (insumo : Option String) :
    Almoxafire × Bool :=
  match insumo with
  | some v => ({ p.1 with insumo := pyStrip v }, true)
  | none => p

/-- The `if observacao is not None:` block of `editar_almoxafire`. -/
def almoxSetObservacao (p : Almoxafire × Bool)
    (observacao : Option String) : Almoxafire × Bool :=
  match observacao with
  | some v => ({ p.1 with observacao := normObs v }, true)
  | none => p

/-- The first five field blocks of `editar_almoxafire`, in source
order. -/
def almoxChain (reg : Almoxafire) (setor turno : Option String)
    (matricula : Option Int) (responsavel insumo : Option String) :
    Almoxafire × Bool :=
  almoxSetInsumo (almoxSetResponsavel (almoxSetMatricula (almoxSetTurno
    (almoxSetSetor (reg, false) setor) turno) matricula) responsavel)
    insumo

/-- `editar_almoxafire(almox_id, ...)` under the owner-or-admin gate;
an invalid quantidade raises, which rolls the session back (state
unchanged). -/
def editar_almoxafire (cu : CurrentUser) (now : DateTime)
    (auditFalha : Bool) (db : DB) (almox_id : Nat)
    (setor turno : Option String) (matricula : Option Int)
    (responsavel insumo : Option String) (quantidade : Option Int)
    (observacao : Option String) : Except String (DB × Bool) :=
  match findAlmoxafire db almox_id with
  | none => .ok (db, false)
  | some reg =>
    if cu.tipo ≠ some "ADMINISTRADOR" ∧ reg.usuario ≠ cu.username then
      .ok (db, false)
    else
      let p := almoxChain reg setor turno matricula responsavel insumo
      match quantidade with
      | some q =>
        if q ≤ 0 then .error "Quantidade deve ser > 0"
        else
          let p2 := almoxSetObservacao ({ p.1 with quantidade := q }, true)
            observacao
          let db1 := { db with almoxafire :=
            updateAlmoxafireById db.almoxafire almox_id p2.1 }
          let db2 := auditoriaSilenciosa cu now auditFalha db1 "Almoxarifado"
            "alteração"
          .ok (db2, true)
      | none =>
        let p2 := almoxSetObservacao p observacao
        if p2.2 then
          let db1 := { db with almoxafire :=
            updateAlmoxafireById db.almoxafire almox_id p2.1 }
          let db2 := auditoriaSilenciosa cu now auditFalha db1 "Almoxarifado"
            "alteração"
          .ok (db2, true)
        else .ok (db, false)

/-- `excluir_almoxafire(almox_id)` under the owner-or-admin gate. -/
def excluir_almoxafire (cu : CurrentUser) (now : DateTime)
    (auditFalha : Bool) (db : DB) (almox_id : Nat) :
    Except String (DB × Bool) :=
  match findAlmoxafire db almox_id with
  | none => .ok (db, false)
  | some reg =>
    if cu.tipo ≠ some "ADMINISTRADOR" ∧ reg.usuario ≠ cu.username then
      .ok (db, false)
    else
      let db1 := { db with almoxafire :=
        db.almoxafire.filter (fun r => r.id ≠ almox_id) }
      let db2 := auditoriaSilenciosa cu now auditFalha db1 "Almoxarifado"
        "alteração"
      .ok (db2, true)

/-- `excluir_epi(epi_id)` under the owner-or-admin gate; the
`cascade="all,delete-orphan"` relationship `EpiModel.itens` deletes the
`EPIS_ITENS` rows of the header together with it. -/
def excluir_epi (cu : CurrentUser) (now : DateTime) (auditFalha : Bool)
    (db : DB) (epi_id : Nat) : Except String (DB × Bool) :=
  match findEpi db epi_id with
  | none => .ok (db, false)
  | some reg =>
    if cu.tipo ≠ some "ADMINISTRADOR" ∧ reg.usuario ≠ cu.username then
      .ok (db, false)
    else
      let db1 := { db with
        epis := db.epis.filter (fun r => r.id ≠ epi_id),
        epis_itens := db.epis_itens.filter (fun it => it.epi_id ≠ epi_id) }
      let db2 := auditoriaSilenciosa cu now auditFalha db1 "EPIs" "alteração"
      .ok (db2, true)

/-! ### Query layer -/

/-- Stable insertion step for descending order by `key`. -/
def insertDescBy {α : Type} (key : α → Nat) (x : α) : List α → List α
  | [] => [x]
  | y :: ys => if key x < key y then y :: insertDescBy key x ys
               else x :: y :: ys

/-- Stable sort, descending by `key`; models `ORDER BY ... DESC`. -/
def sortDescBy {α : Type} (key : α → Nat) : List α → List α
  | [] => []
  | x :: xs => insertDescBy key x (sortDescBy key xs)

/-- `consultar_registros_por_item(item)`: validates `item > 0`, then
returns the matching `registros` rows ordered by `created_at DESC`.
The `salvar_auditoria(transacao="Consultas", tipo="consulta")` block of
the source sits after the `return` statement and never executes, so no
audit entry is written. -/
def consultar_registros_por_item (db : DB) (item : Int) :
    Except String (DB × List Registro) :=
  if item ≤ 0 then .error "Item deve ser > 0"
  else .ok (db, sortDescBy (fun r => dtKey r.created_at)
    (db.registros.filter (fun r => r.item = item)))

/-- `consultar_todos_registros(limit=None)`: all `registros` rows ordered
by `created_at DESC`, truncated to `limit` when given.  As in
`consultar_registros_por_item`, the trailing audit block of the source
is unreachable (it follows the `return`), so no audit entry is
written. -/
def consultar_todos_registros (db : DB) (limit : Option Nat) :
    DB × List Registro :=
  let regs := sortDescBy (fun r => dtKey r.created_at) db.registros
  (db, match limit with
       | some n => regs.take n
       | none => regs)

/-- The `data_ini` block of `consultar_registros_filtrados`: a truthy
string must parse as an ISO timestamp, else
`ValueError("data_ini inválida (use YYYY-MM-DD)")`. -/
def filtroDataIni (data_ini : Option String) :
    Except String (Option DateTime) :=
  match data_ini with
  | some s =>
    if s ≠ "" then
      match datetime_fromisoformat s with
      | some dt => .ok (some dt)
      | none => .error "data_ini inválida (use YYYY-MM-DD)"
    else .ok none
  | none => .ok none

/-- The `data_fim` block of `consultar_registros_filtrados`: a truthy
string must parse; a bare 10-character date is widened to 23:59:59 of
that day (`dt_fim.replace(hour=23, minute=59, second=59)`). -/
def filtroDataFim (data_fim : Option String) :
    Except String (Option DateTime) :=
  match data_fim with
  | some s =>
    if s ≠ "" then
      match datetime_fromisoformat s with
      | some dt =>
        .ok (some (if s.data.length = 10 then
          { dt with hour := 23, minute := 59, second := 59 } else dt))
      | none => .error "data_fim inválida (use YYYY-MM-DD)"
    else .ok none
  | none => .ok none

/-- `consultar_registros_filtrados(data_ini=None, data_fim=None,
motivo_sub=None)`: optional inclusive `created_at` bounds and an
optional case-insensitive substring filter on `motivo`, ordered by
`created_at DESC`.  There is no inverted-range check here, and the
trailing audit block of the source is unreachable. -/
def consultar_registros_filtrados (db : DB)
    (data_ini data_fim motivo_sub : Option String) :
    Except String (DB × List Registro) :=
  match filtroDataIni data_ini with
  | .error e => .error e
  | .ok fIni =>
    match filtroDataFim data_fim with
    | .error e => .error e
    | .ok fFim =>
      let regs := db.registros.filter fun r =>
        (match fIni with
         | some dt => decide (dtKey dt ≤ dtKey r.created_at)
         | none => true) &&
        (match fFim with
         | some dt => decide (dtKey r.created_at ≤ dtKey dt)
         | none => true) &&
        (match motivo_sub with
         | some sub => if sub ≠ "" then containsSub r.motivo sub else true
         | none => true)
      .ok (db, sortDescBy (fun r => dtKey r.created_at) regs)

/-- The `data_ini` block of `consultar_almoxafire`: a truthy string must
parse; a 10-character date is pinned to 00:00:00.000000. -/
def almoxDataIni (data_ini : Option String) :
    Except String (Option DateTime) :=
  match data_ini with
  | some s =>
    if s ≠ "" then
      match datetime_fromisoformat s with
      | some dt =>
        .ok (some (if s.data.length = 10 then
          { dt with hour := 0, minute := 0, second := 0, micro := 0 }
          else dt))
      | none => .error "data_ini inválida (use YYYY-MM-DD)"
    else .ok none
  | none => .ok none

/-- The `data_fim` block of `consultar_almoxafire`: a truthy string must
parse; a 10-character date is widened to 23:59:59.999999. -/
def almoxDataFim (data_fim : Option String) :
    Except String (Option DateTime) :=
  match data_fim with
  | some s =>
    if s ≠ "" then
      match datetime_fromisoformat s with
      | some dt =>
        .ok (some (if s.data.length = 10 then
          { dt with hour := 23, minute := 59, second := 59, micro := 999999 }
          else dt))
      | none => .error "data_fim inválida (use YYYY-MM-DD)"
    else .ok none
  | none => .ok none

/-- `if dt_ini and dt_fim and dt_ini > dt_fim` (both bounds present and
inverted); `datetime` values are always truthy in Python. -/
def periodoInvalido (a b : Option DateTime) : Bool :=
  match a, b with
  | some x, some y => decide (dtKey y < dtKey x)
  | _, _ => false

/-- `if di and df and di > df` for bare dates. -/
def periodoInvalidoData (a b : Option PyDate) : Bool :=
  match a, b with
  | some x, some y => decide (dateKey y < dateKey x)
  | _, _ => false

/-- `consultar_almoxafire(turno=None, data_ini=None, data_fim=None)`:
optional turno equality filter and inclusive `created_at` bounds; an
inverted range (`dt_ini > dt_fim`) raises before querying.  The
trailing audit block of the source is unreachable. -/
def consultar_almoxafire (db : DB) (turno data_ini data_fim : Option String) :
    Except String (DB × List Almoxafire) :=
  match almoxDataIni data_ini with
  | .error e => .error e
  | .ok dtIni =>
    match almoxDataFim data_fim with
    | .error e => .error e
    | .ok dtFim =>
      if periodoInvalido dtIni dtFim then
        .error "Período inválido: data inicial maior que a final"
      else
        let regs := db.almoxafire.filter fun r =>
          (match turno with
           | some t => if t ≠ "" then decide (r.turno = t) else true
           | none => true) &&
          (match dtIni with
           | some dt => decide (dtKey dt ≤ dtKey r.created_at)
           | none => true) &&
          (match dtFim with
           | some dt => decide (dtKey r.created_at ≤ dtKey dt)
           | none => true)
        .ok (db, sortDescBy (fun r => dtKey r.created_at) regs)

/-- A `data_ini`/`data_fim` block of `consultar_epis_por_periodo`: a
truthy string must parse as a bare ISO date, else a `ValueError`
carrying the given message. -/
def epiDataBound (bound : Option String) (msg : String) :
    Except String (Option PyDate) :=
  match bound with
  | some s =>
    if s ≠ "" then
      match date_fromisoformat s with
      | some d => .ok (some d)
      | none => .error msg
    else .ok none
  | none => .ok none

/-- Sort key for `ORDER BY data_ref DESC, created_at DESC`: the factor
dominates any `dtKey` value (which is < 10^18). -/
def epiOrdKey (r : Epi) : Nat :=
  dateKey r.data_ref * 1000000000000000000 + dtKey r.created_at

/-- `consultar_epis_por_periodo(data_ini=None, data_fim=None)`:
inclusive `data_ref` bounds, inverted range raises, rows ordered by
`data_ref DESC, created_at DESC`, each paired with its `EPIS_ITENS`
count.  The trailing audit block of the source is unreachable. -/
def consultar_epis_por_periodo (db : DB) (data_ini data_fim : Option String) :
    Except String (DB × List (Epi × Nat)) :=
  match epiDataBound data_ini "data_ini inválida (use YYYY-MM-DD)" with
  | .error e => .error e
  | .ok di =>
    match epiDataBound data_fim "data_fim inválida (use YYYY-MM-DD)" with
    | .error e => .error e
    | .ok df =>
      if periodoInvalidoData di df then
        .error "Período inválido: data inicial maior que a final"
      else
        let regs := db.epis.filter fun r =>
          (match di with
           | some d => decide (dateKey d ≤ dateKey r.data_ref)
           | none => true) &&
          (match df with
           | some d => decide (dateKey r.data_ref ≤ dateKey d)
           | none => true)
        let regs := sortDescBy epiOrdKey regs
        .ok (db, regs.map fun r =>
          (r, (db.epis_itens.filter (fun it => it.epi_id = r.id)).length))

/-! ### Administrative operations -/

/-- Abstract model of `UserModel.hash_senha` (passlib bcrypt, an
external collaborator): the only property the claims use is that the
stored hash is a function of the new password. -/
def hash_senha (senha : String) : String := "$2b$" ++ senha

/-- `redefinir_senha_usuario(username, nova_senha)`: admin-only
password reset.  `_assert_admin` raises
`ValueError("Operação permitida apenas para ADMINISTRADOR")` for a
non-admin caller; an admin may not reset another administrator's
password (explicit carve-out); a missing user yields `False`. -/
def redefinir_senha_usuario (cu : CurrentUser) (db : DB)
    (username nova_senha : String) : Except String (DB × Bool) :=
  if nova_senha = "" then .error "Nova senha vazia"
  else if cu.tipo ≠ some "ADMINISTRADOR" then
    .error "Operação permitida apenas para ADMINISTRADOR"
  else
    match findUser db username with
    | none => .ok (db, false)
    | some user =>
      if user.tipo = "ADMINISTRADOR" ∧ some username ≠ cu.username then
        .error "Não é permitido redefinir senha de outro ADMINISTRADOR"
      else
        .ok ({ db with usuarios := db.usuarios.map fun u =>
                if u.username = username then
                  { u with senha_hash := hash_senha nova_senha }
                else u },
             true)

/-- `excluir_usuario(username)`: admin-only (via `_assert_admin`),
refuses to delete any non-`USUARIO` account, and on success deletes the
user row; the `cascade="all,delete-orphan"` relationship
`UserModel.registros` deletes every `registros` row whose `usuario_id`
references the user together with it. -/
def excluir_usuario (cu : CurrentUser) (db : DB) (username : String) :
    Except String (DB × Bool) :=
  if cu.tipo ≠ some "ADMINISTRADOR" then
    .error "Operação permitida apenas para ADMINISTRADOR"
  else
    match findUser db username with
    | none => .ok (db, false)
    | some user =>
      if user.tipo ≠ "USUARIO" then
        .error "Só é permitido excluir usuários do tipo USUARIO"
      else
        .ok ({ db with
                usuarios := db.usuarios.filter (fun u => u.id ≠ user.id),
                registros := db.registros.filter
                  (fun r => r.usuario_id ≠ some user.id) }, true)

/-! ### Edit-call sequences (for the provenance invariant) -/

/-- One call to one of the three edit operations, with its arguments. -/
inductive EditOp
  | registro (id : Nat) (quantidade : Option Int)
      (setor_responsavel : Option String)
  | monitoramento (id : Nat) (responsavel setor observacao : Option String)
  | almoxafire (id : Nat) (setor turno : Option String)
      (matricula : Option Int) (responsavel insumo : Option String)
      (quantidade : Option Int) (observacao : Option String)

/-- Persisted state after one edit call (a raised exception rolls the
session back, leaving the state unchanged). -/
def applyEditOp (cu : CurrentUser) (now : DateTime) (fail : Bool)
    (db : DB) : EditOp → DB
  | .registro i q s =>
    match editar_registro cu now fail db i q s with
    | .ok (db', _) => db'
    | .error _ => db
  | .monitoramento i r s o =>
    match editar_monitoramento cu now fail db i r s o with
    | .ok (db', _) => db'
    | .error _ => db
  | .almoxafire i s t m r ins q o =>
    match editar_almoxafire cu now fail db i s t m r ins q o with
    | .ok (db', _) => db'
    | .error _ => db

/-- Persisted state after a sequence of edit calls, each with its own
acting user, clock value and audit-failure oracle. -/
def applyEditSeq (db : DB) :
    List (CurrentUser × DateTime × Bool × EditOp) → DB
  | [] => db
  | (cu, now, fail, op) :: rest =>
    applyEditSeq (applyEditOp cu now fail db op) rest

/-- Provenance preservation between two table states: every row of the
post state has a row of the pre state with the same id, the same
`usuario` (owner) and the same `created_at`. -/
def provPres {α : Type} (idOf : α → Nat) (owner : α → Option String)
    (created : α → DateTime) (pre post : List α) : Prop :=
  ∀ r', r' ∈ post → ∃ r, r ∈ pre ∧ idOf r' = idOf r ∧
    owner r' = owner r ∧ created r' = created r

/-! ### Concrete fixtures used by witnesses and counterexamples -/

/-- A fixed clock value for concrete scenarios. -/
def dtNow : DateTime := ⟨2025, 1, 10, 12, 0, 0, 0⟩

/-- Creation timestamp of the pre-existing fixture rows. -/
def dtCreated : DateTime := ⟨2025, 1, 9, 8, 0, 0, 0⟩

/-- Logged-in regular user `alice`. -/
def cuAlice : CurrentUser := ⟨some "alice", some 2, some "USUARIO"⟩

/-- Logged-in regular user `bob`. -/
def cuBob : CurrentUser := ⟨some "bob", some 4, some "USUARIO"⟩

/-- Logged-in administrator `carol`. -/
def cuCarol : CurrentUser := ⟨some "carol", some 1, some "ADMINISTRADOR"⟩

/-- `usuarios` row for `carol` (ADMINISTRADOR). -/
def userCarol : User := ⟨1, "carol", "$2b$c", "ADMINISTRADOR", dtCreated⟩

/-- `usuarios` row for `alice` (USUARIO). -/
def userAlice : User := ⟨2, "alice", "$2b$a", "USUARIO", dtCreated⟩

/-- `usuarios` row for `dave` (a second ADMINISTRADOR). -/
def userDave : User := ⟨3, "dave", "$2b$d", "ADMINISTRADOR", dtCreated⟩

/-- `usuarios` row for `bob` (USUARIO). -/
def userBob : User := ⟨4, "bob", "$2b$b", "USUARIO", dtCreated⟩

/-- A blocked-item record of `alice` created at 2025-01-10T23:59:59. -/
def regA : Registro :=
  ⟨1, 2222223, 150, "motivo", "setor", some "alice", some 2,
    ⟨2025, 1, 10, 23, 59, 59, 0⟩⟩

/-- A blocked-item record of `alice` created at 2025-01-11T00:00:01. -/
def regB : Registro :=
  ⟨2, 2222223, 10, "outro", "setor", some "alice", some 2,
    ⟨2025, 1, 11, 0, 0, 1, 0⟩⟩

/-- A blocked-item record of `bob`. -/
def regC : Registro :=
  ⟨3, 5, 7, "m3", "s3", some "bob", some 4, dtCreated⟩

/-- `regA` after an edit setting `quantidade := 7`. -/
def regAEdited : Registro :=
  ⟨1, 2222223, 7, "motivo", "setor", some "alice", some 2,
    ⟨2025, 1, 10, 23, 59, 59, 0⟩⟩

/-- A MONITORAMENTO record of `alice`. -/
def monA : Monitoramento :=
  ⟨1, "o1", "c1", "ct1", "RESP", "st", none, some "alice", dtCreated⟩

/-- An ALMOXAFIRE record of `alice`. -/
def almA : Almoxafire :=
  ⟨1, "SETOR", "1° Turno", 10, "RESP", "ins", 5, none, some "alice",
    dtCreated⟩

/-- An EPIS header of `alice`. -/
def epiA : Epi :=
  ⟨1, 10, "SETOR", "1° Turno", "SIM", ⟨2025, 1, 9⟩, 20, none,
    some "alice", dtCreated⟩

/-- An EPIS_ITENS row belonging to `epiA`. -/
def itemA : EpiItem := ⟨1, 1, "cod", "prod", 2, some "PARES", none, none⟩

/-- A pre-existing audit entry. -/
def audA : AuditLog := ⟨1, some "alice", "Bloqueado", "input", dtCreated⟩

/-- The concrete database used by witnesses and counterexamples. -/
def dbW : DB :=
  ⟨[userCarol, userAlice, userDave, userBob], [regA, regB, regC], [monA],
    [almA], [epiA], [itemA], [audA], 5, 4, 2, 2, 2, 2, 2⟩

/-! ### Helper lemmas -/

theorem auditoriaSilenciosa_spec (cu : CurrentUser) (now : DateTime)
    (fail : Bool) (db : DB) (t tp : String) :
    ∃ logs nid, auditoriaSilenciosa cu now fail db t tp =
      { db with audit_logs := logs, next_audit_id := nid } := by
  simp only [auditoriaSilenciosa, salvar_auditoria]
  split_ifs <;> exact ⟨_, _, rfl⟩

theorem auditoriaSilenciosa_registros (cu : CurrentUser) (now : DateTime)
    (fail : Bool) (db : DB) (t tp : String) :
    (auditoriaSilenciosa cu now fail db t tp).registros = db.registros := by
  obtain ⟨l, n, h⟩ := auditoriaSilenciosa_spec cu now fail db t tp
  rw [h]

theorem auditoriaSilenciosa_monitoramento (cu : CurrentUser)
    (now : DateTime) (fail : Bool) (db : DB) (t tp : String) :
    (auditoriaSilenciosa cu now fail db t tp).monitoramento =
      db.monitoramento := by
  obtain ⟨l, n, h⟩ := auditoriaSilenciosa_spec cu now fail db t tp
  rw [h]

theorem auditoriaSilenciosa_almoxafire (cu : CurrentUser) (now : DateTime)
    (fail : Bool) (db : DB) (t tp : String) :
    (auditoriaSilenciosa cu now fail db t tp).almoxafire =
      db.almoxafire := by
  obtain ⟨l, n, h⟩ := auditoriaSilenciosa_spec cu now fail db t tp
  rw [h]

theorem auditoriaSilenciosa_epis (cu : CurrentUser) (now : DateTime)
    (fail : Bool) (db : DB) (t tp : String) :
    (auditoriaSilenciosa cu now fail db t tp).epis = db.epis := by
  obtain ⟨l, n, h⟩ := auditoriaSilenciosa_spec cu now fail db t tp
  rw [h]

theorem auditoriaSilenciosa_usuarios (cu : CurrentUser) (now : DateTime)
    (fail : Bool) (db : DB) (t tp : String) :
    (auditoriaSilenciosa cu now fail db t tp).usuarios = db.usuarios := by
  obtain ⟨l, n, h⟩ := auditoriaSilenciosa_spec cu now fail db t tp
  rw [h]

theorem mem_insertDescBy {α : Type} (key : α → Nat) (x a : α)
    (l : List α) : a ∈ insertDescBy key x l ↔ a = x ∨ a ∈ l := by
  induction l with
  | nil => simp [insertDescBy]
  | cons y ys ih =>
    simp only [insertDescBy]
    split
    · simp only [List.mem_cons, ih]
      tauto
    · simp only [List.mem_cons]

theorem mem_sortDescBy {α : Type} (key : α → Nat) (a : α) (l : List α) :
    a ∈ sortDescBy key l ↔ a ∈ l := by
  induction l with
  | nil => simp [sortDescBy]
  | cons y ys ih =>
    simp only [sortDescBy, mem_insertDescBy, List.mem_cons, ih]

theorem provPres_refl {α : Type} (idOf : α → Nat)
    (owner : α → Option String) (created : α → DateTime) (l : List α) :
    provPres idOf owner created l l :=
  fun r' h => ⟨r', h, rfl, rfl, rfl⟩

theorem provPres_trans {α : Type} {idOf : α → Nat}
    {owner : α → Option String} {created : α → DateTime}
    {l1 l2 l3 : List α} (h12 : provPres idOf owner created l1 l2)
    (h23 : provPres idOf owner created l2 l3) :
    provPres idOf owner created l1 l3 := by
  intro r' h3
  obtain ⟨r2, h2, hi2, ho2, hc2⟩ := h23 r' h3
  obtain ⟨r1, h1, hi1, ho1, hc1⟩ := h12 r2 h2
  exact ⟨r1, h1, hi2.trans hi1, ho2.trans ho1, hc2.trans hc1⟩

/-- Replacing the rows with primary key `tgt` by a constant row `c`
that keeps the id, owner and creation timestamp of a row `reg` of the
table preserves provenance. -/
theorem provPres_update {α : Type} (idOf : α → Nat)
    (owner : α → Option String) (created : α → DateTime) (l : List α)
    (tgt : Nat) (reg c : α) (hmem : reg ∈ l) (hid : idOf c = idOf reg)
    (how : owner c = owner reg) (hcr : created c = created reg) :
    provPres idOf owner created l
      (l.map fun x => if idOf x = tgt then c else x) := by
  intro r' h'
  obtain ⟨r0, h0, hr0⟩ := List.mem_map.mp h'
  by_cases h : idOf r0 = tgt
  · rw [if_pos h] at hr0
    exact ⟨reg, hmem, by rw [← hr0, hid], by rw [← hr0, how],
      by rw [← hr0, hcr]⟩
  · rw [if_neg h] at hr0
    exact ⟨r0, h0, by rw [hr0], by rw [hr0], by rw [hr0]⟩

theorem authorize_not_cond (o : Option String) (cu : CurrentUser)
    (h : authorize_mutation o cu) :
    ¬ (cu.tipo ≠ some "ADMINISTRADOR" ∧ o ≠ cu.username) := by
  unfold authorize_mutation at h
  tauto

theorem not_authorize_cond (o : Option String) (cu : CurrentUser)
    (h : ¬ authorize_mutation o cu) :
    cu.tipo ≠ some "ADMINISTRADOR" ∧ o ≠ cu.username := by
  unfold authorize_mutation at h
  tauto

theorem find?_updateById_self {α : Type} (idOf : α → Nat) (l : List α)
    (tgt : Nat) (c : α) (hc : idOf c = tgt)
    (hex : (l.find? fun x => idOf x = tgt).isSome) :
    ((l.map fun x => if idOf x = tgt then c else x).find?
      fun x => idOf x = tgt) = some c := by
  induction l with
  | nil => simp [List.find?] at hex
  | cons y ys ih =>
    by_cases h : idOf y = tgt
    · simp only [List.map_cons, if_pos h]
      exact List.find?_cons_of_pos _ (by simp [hc])
    · have hex' : (ys.find? fun x => idOf x = tgt).isSome := by
        rw [List.find?_cons_of_neg _ (by simp [h])] at hex
        exact hex
      simp only [List.map_cons, if_neg h]
      rw [List.find?_cons_of_neg _ (by simp [h])]
      exact ih hex'

theorem find?_filter_ne {α : Type} (idOf : α → Nat) (l : List α)
    (tgt : Nat) :
    ((l.filter fun x => idOf x ≠ tgt).find? fun x => idOf x = tgt) =
      none := by
  rw [List.find?_eq_none]
  intro a ha
  have h2 := (List.mem_filter.mp ha).2
  simp only [ne_eq, decide_not, Bool.not_eq_true', decide_eq_false_iff_not]
    at h2
  simp only [decide_eq_true_eq]
  exact h2

theorem editar_registro_cases (cu : CurrentUser) (now : DateTime)
    (fail : Bool) (db : DB) (rid : Nat) (q : Option Int)
    (s : Option String) :
    (∃ b, editar_registro cu now fail db rid q s = .ok (db, b)) ∨
    (∃ reg c b, findRegistro db rid = some reg ∧
      editar_registro cu now fail db rid q s =
        .ok (auditoriaSilenciosa cu now fail
          { db with registros := updateRegistroById db.registros rid c }
          "Bloqueado" "alteração", b) ∧
      c.id = reg.id ∧ c.usuario = reg.usuario ∧
      c.created_at = reg.created_at) := by
  cases hfind : findRegistro db rid with
  | none =>
    refine .inl ⟨false, ?_⟩
    unfold editar_registro
    rw [hfind]
  | some reg =>
    by_cases hperm : cu.tipo ≠ some "ADMINISTRADOR" ∧
      reg.usuario ≠ cu.username
    · refine .inl ⟨false, ?_⟩
      unfold editar_registro
      rw [hfind]
      simp only []
      rw [if_pos hperm]
    · unfold editar_registro
      rw [hfind]
      simp only []
      rw [if_neg hperm]
      rcases q with _ | qv <;> rcases s with _ | sv <;>
        first
          | exact .inl ⟨false, rfl⟩
          | exact .inr ⟨reg, _, true, rfl, rfl, rfl, rfl, rfl⟩

theorem editar_monitoramento_cases (cu : CurrentUser) (now : DateTime)
    (fail : Bool) (db : DB) (mid : Nat) (r s o : Option String) :
    (∃ b, editar_monitoramento cu now fail db mid r s o = .ok (db, b)) ∨
    (∃ reg c b, findMonitoramento db mid = some reg ∧
      editar_monitoramento cu now fail db mid r s o =
        .ok (auditoriaSilenciosa cu now fail
          { db with monitoramento :=
              updateMonitoramentoById db.monitoramento mid c }
          "Monitoramento" "alteração", b) ∧
      c.id = reg.id ∧ c.usuario = reg.usuario ∧
      c.created_at = reg.created_at) := by
  cases hfind : findMonitoramento db mid with
  | none =>
    refine .inl ⟨false, ?_⟩
    unfold editar_monitoramento
    rw [hfind]
  | some reg =>
    by_cases hperm : cu.tipo ≠ some "ADMINISTRADOR" ∧
      reg.usuario ≠ cu.username
    · refine .inl ⟨false, ?_⟩
      unfold editar_monitoramento
      rw [hfind]
      simp only []
      rw [if_pos hperm]
    · unfold editar_monitoramento
      rw [hfind]
      simp only []
      rw [if_neg hperm]
      rcases r with _ | rv <;> rcases s with _ | sv <;>
        rcases o with _ | ov <;>
        first
          | exact .inl ⟨false, rfl⟩
          | exact .inr ⟨reg, _, true, rfl, rfl, rfl, rfl, rfl⟩

theorem almoxChain_preserves (reg : Almoxafire) (s t : Option String)
    (m : Option Int) (rv ins : Option String) :
    (almoxChain reg s t m rv ins).1.id = reg.id ∧
    (almoxChain reg s t m rv ins).1.usuario = reg.usuario ∧
    (almoxChain reg s t m rv ins).1.created_at = reg.created_at := by
  rcases s with _ | sv <;> rcases t with _ | tv <;> rcases m with _ | mv <;>
    rcases rv with _ | rvv <;> rcases ins with _ | iv <;>
    exact ⟨rfl, rfl, rfl⟩

theorem almoxSetObservacao_preserves (p : Almoxafire × Bool)
    (o : Option String) :
    (almoxSetObservacao p o).1.id = p.1.id ∧
    (almoxSetObservacao p o).1.usuario = p.1.usuario ∧
    (almoxSetObservacao p o).1.created_at = p.1.created_at := by
  cases o <;> exact ⟨rfl, rfl, rfl⟩

theorem editar_almoxafire_cases (cu : CurrentUser) (now : DateTime)
    (fail : Bool) (db : DB) (aid : Nat) (s t : Option String)
    (m : Option Int) (rv ins : Option String) (q : Option Int)
    (o : Option String) :
    (∃ b, editar_almoxafire cu now fail db aid s t m rv ins q o =
      .ok (db, b)) ∨
    (∃ e, editar_almoxafire cu now fail db aid s t m rv ins q o =
      .error e) ∨
    (∃ reg c b, findAlmoxafire db aid = some reg ∧
      editar_almoxafire cu now fail db aid s t m rv ins q o =
        .ok (auditoriaSilenciosa cu now fail
          { db with almoxafire :=
              updateAlmoxafireById db.almoxafire aid c }
          "Almoxarifado" "alteração", b) ∧
      c.id = reg.id ∧ c.usuario = reg.usuario ∧
      c.created_at = reg.created_at) := by
  cases hfind : findAlmoxafire db aid with
  | none =>
    refine .inl ⟨false, ?_⟩
    unfold editar_almoxafire
    rw [hfind]
  | some reg =>
    by_cases hperm : cu.tipo ≠ some "ADMINISTRADOR" ∧
      reg.usuario ≠ cu.username
    · refine .inl ⟨false, ?_⟩
      unfold editar_almoxafire
      rw [hfind]
      simp only []
      rw [if_pos hperm]
    · unfold editar_almoxafire
      rw [hfind]
      simp only []
      rw [if_neg hperm]
      obtain ⟨h1, h2, h3⟩ := almoxChain_preserves reg s t m rv ins
      cases q with
      | some qv =>
        simp only []
        split_ifs with hq0
        · exact .inr (.inl ⟨_, rfl⟩)
        · refine .inr (.inr ⟨reg, _, true, rfl, rfl, ?_, ?_, ?_⟩)
          · exact (almoxSetObservacao_preserves _ o).1.trans h1
          · exact (almoxSetObservacao_preserves _ o).2.1.trans h2
          · exact (almoxSetObservacao_preserves _ o).2.2.trans h3
      | none =>
        simp only [almoxSetObservacao]
        cases o with
        | some ov =>
          refine .inr (.inr ⟨reg, _, true, rfl, rfl, ?_, ?_, ?_⟩)
          · exact h1
          · exact h2
          · exact h3
        | none =>
          cases hb : (almoxChain reg s t m rv ins).2 with
          | false => exact .inl ⟨false, rfl⟩
          | true => exact .inr (.inr ⟨reg, _, true, rfl, rfl, h1, h2, h3⟩)

theorem applyEditOp_prov (cu : CurrentUser) (now : DateTime) (fail : Bool)
    (db : DB) (op : EditOp) :
    provPres Registro.id Registro.usuario Registro.created_at db.registros
      (applyEditOp cu now fail db op).registros ∧
    provPres Monitoramento.id Monitoramento.usuario Monitoramento.created_at
      db.monitoramento (applyEditOp cu now fail db op).monitoramento ∧
    provPres Almoxafire.id Almoxafire.usuario Almoxafire.created_at
      db.almoxafire (applyEditOp cu now fail db op).almoxafire := by
  cases op with
  | registro i q s =>
    rcases editar_registro_cases cu now fail db i q s with
      ⟨b, heq⟩ | ⟨reg, c, b, hfind, heq, hid, hu, hc⟩
    · simp only [applyEditOp, heq]
      exact ⟨provPres_refl _ _ _ _, provPres_refl _ _ _ _,
        provPres_refl _ _ _ _⟩
    · simp only [applyEditOp, heq]
      refine ⟨?_, ?_, ?_⟩
      · rw [auditoriaSilenciosa_registros]
        simp only [updateRegistroById]
        exact provPres_update _ _ _ _ _ reg c
          (List.mem_of_find?_eq_some hfind) hid hu hc
      · rw [auditoriaSilenciosa_monitoramento]
        exact provPres_refl _ _ _ _
      · rw [auditoriaSilenciosa_almoxafire]
        exact provPres_refl _ _ _ _
  | monitoramento i r s o =>
    rcases editar_monitoramento_cases cu now fail db i r s o with
      ⟨b, heq⟩ | ⟨reg, c, b, hfind, heq, hid, hu, hc⟩
    · simp only [applyEditOp, heq]
      exact ⟨provPres_refl _ _ _ _, provPres_refl _ _ _ _,
        provPres_refl _ _ _ _⟩
    · simp only [applyEditOp, heq]
      refine ⟨?_, ?_, ?_⟩
      · rw [auditoriaSilenciosa_registros]
        exact provPres_refl _ _ _ _
      · rw [auditoriaSilenciosa_monitoramento]
        simp only [updateMonitoramentoById]
        exact provPres_update _ _ _ _ _ reg c
          (List.mem_of_find?_eq_some hfind) hid hu hc
      · rw [auditoriaSilenciosa_almoxafire]
        exact provPres_refl _ _ _ _
  | almoxafire i s t m rv ins q o =>
    rcases editar_almoxafire_cases cu now fail db i s t m rv ins q o with
      ⟨b, heq⟩ | ⟨e, heq⟩ | ⟨reg, c, b, hfind, heq, hid, hu, hc⟩
    · simp only [applyEditOp, heq]
      exact ⟨provPres_refl _ _ _ _, provPres_refl _ _ _ _,
        provPres_refl _ _ _ _⟩
    · simp only [applyEditOp, heq]
      exact ⟨provPres_refl _ _ _ _, provPres_refl _ _ _ _,
        provPres_refl _ _ _ _⟩
    · simp only [applyEditOp, heq]
      refine ⟨?_, ?_, ?_⟩
      · rw [auditoriaSilenciosa_registros]
        exact provPres_refl _ _ _ _
      · rw [auditoriaSilenciosa_monitoramento]
        exact provPres_refl _ _ _ _
      · rw [auditoriaSilenciosa_almoxafire]
        simp only [updateAlmoxafireById]
        exact provPres_update _ _ _ _ _ reg c
          (List.mem_of_find?_eq_some hfind) hid hu hc

theorem applyEditSeq_prov
    (calls : List (CurrentUser × DateTime × Bool × EditOp)) (db : DB) :
    provPres Registro.id Registro.usuario Registro.created_at db.registros
      (applyEditSeq db calls).registros ∧
    provPres Monitoramento.id Monitoramento.usuario Monitoramento.created_at
      db.monitoramento (applyEditSeq db calls).monitoramento ∧
    provPres Almoxafire.id Almoxafire.usuario Almoxafire.created_at
      db.almoxafire (applyEditSeq db calls).almoxafire := by
  induction calls generalizing db with
  | nil =>
    exact ⟨provPres_refl _ _ _ _, provPres_refl _ _ _ _,
      provPres_refl _ _ _ _⟩
  | cons p rest ih =>
    obtain ⟨cu, now, fail, op⟩ := p
    have h1 := applyEditOp_prov cu now fail db op
    have h2 := ih (applyEditOp cu now fail db op)
    exact ⟨provPres_trans h1.1 h2.1, provPres_trans h1.2.1 h2.2.1,
      provPres_trans h1.2.2 h2.2.2⟩

/-! ### Claim theorems -/

/-- C1 counterexample: the claim as stated is false — for the stored
record `regA` (owned by `alice`) and the acting user `alice`,
`authorize_mutation` holds, yet the edit call `editar_registro(1)` with
no fields supplied performs no mutation and returns `False` (the state
is returned unchanged), so "proceed to mutate exactly when authorized"
fails in the authorized direction. -/
theorem C1_counterexample :
    authorize_mutation regA.usuario cuAlice ∧
    findRegistro dbW 1 = some regA ∧
    editar_registro cuAlice dtNow false dbW 1 none none =
      .ok (dbW, false) := by
  decide

/-- C1 (amended): deletes mutate exactly when the acting user is an
ADMINISTRADOR or owns the record; edits never mutate for an
unauthorized caller (returning `False` with the state unchanged) and,
when authorized, mutate as soon as a field is supplied (an authorized
edit with no supplied field returns `False` without mutating, per the
counterexample). -/
theorem C1_mutation_gate (cu : CurrentUser) (now : DateTime) (fail : Bool)
    (db : DB) (rid mid aid eid : Nat) (r : Registro) (m : Monitoramento)
    (a : Almoxafire) (e : Epi)
    (hr : findRegistro db rid = some r)
    (hm : findMonitoramento db mid = some m)
    (ha : findAlmoxafire db aid = some a)
    (he : findEpi db eid = some e) :
    (authorize_mutation r.usuario cu →
      ∃ db', excluir_registro cu now fail db rid = .ok (db', true) ∧
        findRegistro db' rid = none) ∧
    (¬ authorize_mutation r.usuario cu →
      excluir_registro cu now fail db rid = .ok (db, false)) ∧
    (∀ q : Int, authorize_mutation r.usuario cu →
      ∃ db', editar_registro cu now fail db rid (some q) none =
          .ok (db', true) ∧
        findRegistro db' rid = some { r with quantidade := q }) ∧
    (∀ (q : Option Int) (s : Option String),
      ¬ authorize_mutation r.usuario cu →
      editar_registro cu now fail db rid q s = .ok (db, false)) ∧
    (authorize_mutation m.usuario cu →
      ∃ db', excluir_monitoramento cu now fail db mid = .ok (db', true) ∧
        findMonitoramento db' mid = none) ∧
    (¬ authorize_mutation m.usuario cu →
      excluir_monitoramento cu now fail db mid = .ok (db, false)) ∧
    (∀ v : String, authorize_mutation m.usuario cu →
      ∃ db', editar_monitoramento cu now fail db mid none none (some v) =
        .ok (db', true)) ∧
    (∀ v s o, ¬ authorize_mutation m.usuario cu →
      editar_monitoramento cu now fail db mid v s o = .ok (db, false)) ∧
    (authorize_mutation a.usuario cu →
      ∃ db', excluir_almoxafire cu now fail db aid = .ok (db', true) ∧
        findAlmoxafire db' aid = none) ∧
    (¬ authorize_mutation a.usuario cu →
      excluir_almoxafire cu now fail db aid = .ok (db, false)) ∧
    (∀ v : String, authorize_mutation a.usuario cu →
      ∃ db', editar_almoxafire cu now fail db aid none none none none
        (some v) none none = .ok (db', true)) ∧
    (∀ s1 t1 m1 r1 i1 q1 o1, ¬ authorize_mutation a.usuario cu →
      editar_almoxafire cu now fail db aid s1 t1 m1 r1 i1 q1 o1 =
        .ok (db, false)) ∧
    (authorize_mutation e.usuario cu →
      ∃ db', excluir_epi cu now fail db eid = .ok (db', true) ∧
        findEpi db' eid = none) ∧
    (¬ authorize_mutation e.usuario cu →
      excluir_epi cu now fail db eid = .ok (db, false)) := by
  have hrid : r.id = rid := by simpa using List.find?_some hr
  have hexr : (db.registros.find? fun x => x.id = rid).isSome := by
    have h : db.registros.find? (fun x => x.id = rid) = some r := hr
    rw [h]; rfl
  refine ⟨?_, ?_, ?_, ?_, ?_, ?_, ?_, ?_, ?_, ?_, ?_, ?_, ?_, ?_⟩
  · intro hauth
    refine ⟨auditoriaSilenciosa cu now fail
      { db with registros := db.registros.filter fun x => x.id ≠ rid }
      "Bloqueado" "alteração", ?_, ?_⟩
    · unfold excluir_registro
      rw [hr]
      simp only []
      rw [if_neg (authorize_not_cond _ _ hauth)]
    · unfold findRegistro
      rw [auditoriaSilenciosa_registros]
      exact find?_filter_ne _ _ _
  · intro hna
    unfold excluir_registro
    rw [hr]
    simp only []
    rw [if_pos (not_authorize_cond _ _ hna)]
  · intro q hauth
    refine ⟨auditoriaSilenciosa cu now fail { db with registros := updateRegistroById db.registros rid ({ r with quantidade := q }) } "Bloqueado" "alteração", ?_, ?_⟩
    · unfold editar_registro
      rw [hr]
      simp only []
      rw [if_neg (authorize_not_cond _ _ hauth)]
      rfl
    · unfold findRegistro
      rw [auditoriaSilenciosa_registros]
      simp only [updateRegistroById]
      exact find?_updateById_self _ _ _ _ hrid hexr
  · intro q s hna
    unfold editar_registro
    rw [hr]
    simp only []
    rw [if_pos (not_authorize_cond _ _ hna)]
  · intro hauth
    refine ⟨auditoriaSilenciosa cu now fail
      { db with monitoramento :=
          db.monitoramento.filter fun x => x.id ≠ mid }
      "Monitoramento" "alteração", ?_, ?_⟩
    · unfold excluir_monitoramento
      rw [hm]
      simp only []
      rw [if_neg (authorize_not_cond _ _ hauth)]
    · unfold findMonitoramento
      rw [auditoriaSilenciosa_monitoramento]
      exact find?_filter_ne _ _ _
  · intro hna
    unfold excluir_monitoramento
    rw [hm]
    simp only []
    rw [if_pos (not_authorize_cond _ _ hna)]
  · intro v hauth
    refine ⟨auditoriaSilenciosa cu now fail { db with monitoramento := updateMonitoramentoById db.monitoramento mid ({ m with observacao := some v }) } "Monitoramento" "alteração", ?_⟩
    unfold editar_monitoramento
    rw [hm]
    simp only []
    rw [if_neg (authorize_not_cond _ _ hauth)]
    rfl
  · intro v s o hna
    unfold editar_monitoramento
    rw [hm]
    simp only []
    rw [if_pos (not_authorize_cond _ _ hna)]
  · intro hauth
    refine ⟨auditoriaSilenciosa cu now fail
      { db with almoxafire := db.almoxafire.filter fun x => x.id ≠ aid }
      "Almoxarifado" "alteração", ?_, ?_⟩
    · unfold excluir_almoxafire
      rw [ha]
      simp only []
      rw [if_neg (authorize_not_cond _ _ hauth)]
    · unfold findAlmoxafire
      rw [auditoriaSilenciosa_almoxafire]
      exact find?_filter_ne _ _ _
  · intro hna
    unfold excluir_almoxafire
    rw [ha]
    simp only []
    rw [if_pos (not_authorize_cond _ _ hna)]
  · intro v hauth
    refine ⟨auditoriaSilenciosa cu now fail { db with almoxafire := updateAlmoxafireById db.almoxafire aid ({ a with insumo := pyStrip v }) } "Almoxarifado" "alteração", ?_⟩
    unfold editar_almoxafire
    rw [ha]
    simp only []
    rw [if_neg (authorize_not_cond _ _ hauth)]
    rfl
  · intro s1 t1 m1 r1 i1 q1 o1 hna
    unfold editar_almoxafire
    rw [ha]
    simp only []
    rw [if_pos (not_authorize_cond _ _ hna)]
  · intro hauth
    refine ⟨auditoriaSilenciosa cu now fail
      { db with epis := db.epis.filter fun x => x.id ≠ eid,
                epis_itens :=
                  db.epis_itens.filter fun it => it.epi_id ≠ eid }
      "EPIs" "alteração", ?_, ?_⟩
    · unfold excluir_epi
      rw [he]
      simp only []
      rw [if_neg (authorize_not_cond _ _ hauth)]
    · unfold findEpi
      rw [auditoriaSilenciosa_epis]
      exact find?_filter_ne _ _ _
  · intro hna
    unfold excluir_epi
    rw [he]
    simp only []
    rw [if_pos (not_authorize_cond _ _ hna)]

/-- C1 witness: the amended theorem applied to the concrete database,
with `alice` (the owner of record 1) deleting her own record. -/
theorem C1_mutation_gate_witness :
    ∃ db', excluir_registro cuAlice dtNow false dbW 1 = .ok (db', true) ∧
      findRegistro db' 1 = none :=
  (C1_mutation_gate cuAlice dtNow false dbW 1 1 1 1 regA monA almA epiA
    (by decide) (by decide) (by decide) (by decide)).1 (by decide)

/-- C2: a non-existent id and an existing record whose mutation is
denied produce the same observable result — `False` with the state
unchanged and no exception — for every edit/delete operation, so
not-found and permission-denied are indistinguishable at the call
boundary. -/
theorem C2_notfound_denied_uniform (cu : CurrentUser) (now : DateTime)
    (fail : Bool) (db : DB) (nid : Nat) (q : Option Int)
    (s : Option String) (mr ms mo : Option String)
    (s1 t1 : Option String) (m1 : Option Int) (r1 i1 : Option String)
    (q1 : Option Int) (o1 : Option String)
    (hnr : findRegistro db nid = none)
    (hnm : findMonitoramento db nid = none)
    (hna : findAlmoxafire db nid = none)
    (hne : findEpi db nid = none)
    (rid mid aid eid : Nat) (r : Registro) (m : Monitoramento)
    (a : Almoxafire) (e : Epi)
    (hr : findRegistro db rid = some r)
    (hm : findMonitoramento db mid = some m)
    (ha : findAlmoxafire db aid = some a)
    (he : findEpi db eid = some e)
    (hadm : cu.tipo ≠ some "ADMINISTRADOR")
    (hro : r.usuario ≠ cu.username) (hmo : m.usuario ≠ cu.username)
    (hao : a.usuario ≠ cu.username) (heo : e.usuario ≠ cu.username) :
    editar_registro cu now fail db nid q s = .ok (db, false) ∧
    excluir_registro cu now fail db nid = .ok (db, false) ∧
    editar_monitoramento cu now fail db nid mr ms mo = .ok (db, false) ∧
    excluir_monitoramento cu now fail db nid = .ok (db, false) ∧
    editar_almoxafire cu now fail db nid s1 t1 m1 r1 i1 q1 o1 =
      .ok (db, false) ∧
    excluir_almoxafire cu now fail db nid = .ok (db, false) ∧
    excluir_epi cu now fail db nid = .ok (db, false) ∧
    editar_registro cu now fail db rid q s = .ok (db, false) ∧
    excluir_registro cu now fail db rid = .ok (db, false) ∧
    editar_monitoramento cu now fail db mid mr ms mo = .ok (db, false) ∧
    excluir_monitoramento cu now fail db mid = .ok (db, false) ∧
    editar_almoxafire cu now fail db aid s1 t1 m1 r1 i1 q1 o1 =
      .ok (db, false) ∧
    excluir_almoxafire cu now fail db aid = .ok (db, false) ∧
    excluir_epi cu now fail db eid = .ok (db, false) := by
  refine ⟨?_, ?_, ?_, ?_, ?_, ?_, ?_, ?_, ?_, ?_, ?_, ?_, ?_, ?_⟩
  · unfold editar_registro; rw [hnr]
  · unfold excluir_registro; rw [hnr]
  · unfold editar_monitoramento; rw [hnm]
  · unfold excluir_monitoramento; rw [hnm]
  · unfold editar_almoxafire; rw [hna]
  · unfold excluir_almoxafire; rw [hna]
  · unfold excluir_epi; rw [hne]
  · unfold editar_registro; rw [hr]; simp only []
    rw [if_pos ⟨hadm, hro⟩]
  · unfold excluir_registro; rw [hr]; simp only []
    rw [if_pos ⟨hadm, hro⟩]
  · unfold editar_monitoramento; rw [hm]; simp only []
    rw [if_pos ⟨hadm, hmo⟩]
  · unfold excluir_monitoramento; rw [hm]; simp only []
    rw [if_pos ⟨hadm, hmo⟩]
  · unfold editar_almoxafire; rw [ha]; simp only []
    rw [if_pos ⟨hadm, hao⟩]
  · unfold excluir_almoxafire; rw [ha]; simp only []
    rw [if_pos ⟨hadm, hao⟩]
  · unfold excluir_epi; rw [he]; simp only []
    rw [if_pos ⟨hadm, heo⟩]

/-- C2 witness: user `bob` deleting the non-existent id 999999 and
`alice`'s record 1, both `False` with no exception and no state
change. -/
theorem C2_notfound_denied_uniform_witness :
    excluir_registro cuBob dtNow false dbW 999999 = .ok (dbW, false) ∧
    excluir_registro cuBob dtNow false dbW 1 = .ok (dbW, false) := by
  have h := C2_notfound_denied_uniform cuBob dtNow false dbW 999999
    none none none none none none none none none none none none
    (by decide) (by decide) (by decide) (by decide) 1 1 1 1 regA monA
    almA epiA (by decide) (by decide) (by decide) (by decide) (by decide)
    (by decide) (by decide) (by decide) (by decide)
  exact ⟨h.2.1, h.2.2.2.2.2.2.2.2.1⟩

/-- C3: an audit-write failure is absorbed — flipping the audit-failure
oracle changes neither the returned id / boolean outcome nor the
business table, for the create (`salvar_registro`) and mutate
(`excluir_registro`) operations; the insert still returns the generated
id. -/
theorem C3_audit_failure_absorbed (cu : CurrentUser) (now : DateTime)
    (db : DB) (item q : Int) (motivo setor : String) (rid : Nat) :
    (salvar_registro cu now true db item q motivo setor).2 =
      (salvar_registro cu now false db item q motivo setor).2 ∧
    (salvar_registro cu now true db item q motivo setor).1.registros =
      (salvar_registro cu now false db item q motivo setor).1.registros ∧
    (salvar_registro cu now true db item q motivo setor).2 =
      db.next_registro_id ∧
    (excluir_registro cu now true db rid).map
        (fun p => (p.1.registros, p.2)) =
      (excluir_registro cu now false db rid).map
        (fun p => (p.1.registros, p.2)) := by
  refine ⟨rfl, ?_, rfl, ?_⟩
  · unfold salvar_registro
    simp only []
    rw [auditoriaSilenciosa_registros, auditoriaSilenciosa_registros]
  · cases hfind : findRegistro db rid with
    | none => unfold excluir_registro; rw [hfind]
    | some reg =>
      unfold excluir_registro
      rw [hfind]
      simp only []
      split_ifs with hperm
      · rfl
      · simp only [Except.map]
        rw [auditoriaSilenciosa_registros, auditoriaSilenciosa_registros]

theorem findRegistro_after_update (cu : CurrentUser) (now : DateTime)
    (fail : Bool) (db : DB) (rid : Nat) (c : Registro) (hc : c.id = rid)
    (hex : (db.registros.find? fun x => x.id = rid).isSome) :
    findRegistro (auditoriaSilenciosa cu now fail
      { db with registros := updateRegistroById db.registros rid c }
      "Bloqueado" "alteração") rid = some c := by
  unfold findRegistro
  rw [auditoriaSilenciosa_registros]
  simp only [updateRegistroById]
  exact find?_updateById_self _ _ _ _ hc hex

/-- C4: no sequence of edit calls (any users, clocks and audit-failure
patterns) changes any record's `usuario` or `created_at` in the
`registros`, `MONITORAMENTO` or `ALMOXAFIRE` tables; moreover a single
`editar_registro` call changes none of the non-supplied fields of the
edited record. -/
theorem C4_provenance_immutable (db : DB)
    (calls : List (CurrentUser × DateTime × Bool × EditOp)) :
    provPres Registro.id Registro.usuario Registro.created_at db.registros
      (applyEditSeq db calls).registros ∧
    provPres Monitoramento.id Monitoramento.usuario
      Monitoramento.created_at db.monitoramento
      (applyEditSeq db calls).monitoramento ∧
    provPres Almoxafire.id Almoxafire.usuario Almoxafire.created_at
      db.almoxafire (applyEditSeq db calls).almoxafire ∧
    (∀ (cu : CurrentUser) (now : DateTime) (fail : Bool) (rid : Nat)
        (q : Option Int) (s : Option String) (db' : DB) (b : Bool)
        (r r' : Registro),
      findRegistro db rid = some r →
      editar_registro cu now fail db rid q s = .ok (db', b) →
      findRegistro db' rid = some r' →
      r'.usuario = r.usuario ∧ r'.created_at = r.created_at ∧
      r'.item = r.item ∧ r'.motivo = r.motivo ∧
      r'.usuario_id = r.usuario_id ∧
      (q = none → r'.quantidade = r.quantidade) ∧
      (s = none → r'.setor_responsavel = r.setor_responsavel)) := by
  refine ⟨(applyEditSeq_prov calls db).1, (applyEditSeq_prov calls db).2.1,
    (applyEditSeq_prov calls db).2.2, ?_⟩
  intro cu now fail rid q s db' b r r' hfind heq hfind'
  have hrid : r.id = rid := by simpa using List.find?_some hfind
  have hexr : (db.registros.find? fun x => x.id = rid).isSome := by
    have h : db.registros.find? (fun x => x.id = rid) = some r := hfind
    rw [h]; rfl
  unfold editar_registro at heq
  rw [hfind] at heq
  simp only [] at heq
  by_cases hperm : cu.tipo ≠ some "ADMINISTRADOR" ∧ r.usuario ≠ cu.username
  · rw [if_pos hperm] at heq
    injection heq with hpair
    injection hpair with h1 h2
    subst h1
    rw [hfind] at hfind'
    injection hfind' with h3
    subst h3
    exact ⟨rfl, rfl, rfl, rfl, rfl, fun _ => rfl, fun _ => rfl⟩
  · rw [if_neg hperm] at heq
    rcases q with _ | qv <;> rcases s with _ | sv <;> simp only [] at heq
    · first
      | rw [if_neg not_false] at heq
      | rw [if_neg Bool.false_ne_true] at heq
      injection heq with hpair
      injection hpair with h1 h2
      subst h1
      rw [hfind] at hfind'
      injection hfind' with h3
      subst h3
      exact ⟨rfl, rfl, rfl, rfl, rfl, fun _ => rfl, fun _ => rfl⟩
    · rw [if_pos trivial] at heq
      injection heq with hpair
      injection hpair with h1 h2
      subst h1
      have h3 := (findRegistro_after_update cu now fail db rid
        ({ r with setor_responsavel := sv }) hrid hexr).symm.trans hfind'
      injection h3 with h4
      subst h4
      exact ⟨rfl, rfl, rfl, rfl, rfl, fun _ => rfl, fun h => Option.noConfusion h⟩
    · rw [if_pos trivial] at heq
      injection heq with hpair
      injection hpair with h1 h2
      subst h1
      have h3 := (findRegistro_after_update cu now fail db rid
        ({ r with quantidade := qv }) hrid hexr).symm.trans hfind'
      injection h3 with h4
      subst h4
      exact ⟨rfl, rfl, rfl, rfl, rfl, fun h => Option.noConfusion h, fun _ => rfl⟩
    · rw [if_pos trivial] at heq
      injection heq with hpair
      injection hpair with h1 h2
      subst h1
      have h3 := (findRegistro_after_update cu now fail db rid
        ({ r with quantidade := qv, setor_responsavel := sv }) hrid
        hexr).symm.trans hfind'
      injection h3 with h4
      subst h4
      exact ⟨rfl, rfl, rfl, rfl, rfl, fun h => Option.noConfusion h,
        fun h => Option.noConfusion h⟩

/-- C4 witness: after the concrete edit sequence that sets record 1's
quantidade to 7, the resulting row still traces back to a pre-state row
with the same id, owner and creation timestamp. -/
theorem C4_provenance_immutable_witness :
    ∃ rr, rr ∈ dbW.registros ∧ regAEdited.id = rr.id ∧
      regAEdited.usuario = rr.usuario ∧
      regAEdited.created_at = rr.created_at :=
  (C4_provenance_immutable dbW
    [(cuAlice, dtNow, true, EditOp.registro 1 (some 7) none)]).1
    regAEdited (by decide)

/-- C5: contrary to the claim, the query layer writes no audit entry —
both `consultar_todos_registros` and a successful
`consultar_registros_por_item` leave `AUDIT_LOGS` exactly as it was
(their `salvar_auditoria` calls sit after the `return` statement in the
source and never execute). -/
theorem C5_queries_write_no_audit (db : DB) (limit : Option Nat)
    (item : Int) (hitem : 0 < item) :
    (consultar_todos_registros db limit).1.audit_logs = db.audit_logs ∧
    (consultar_registros_por_item db item).map
      (fun p => p.1.audit_logs) = .ok db.audit_logs := by
  refine ⟨rfl, ?_⟩
  unfold consultar_registros_por_item
  rw [if_neg (by omega : ¬ item ≤ 0)]
  rfl

/-- C5 witness: on the concrete database (whose audit log is
non-empty), both query calls return the rows and leave the audit log
untouched. -/
theorem C5_queries_write_no_audit_witness :
    (consultar_todos_registros dbW none).1.audit_logs = dbW.audit_logs ∧
    (consultar_registros_por_item dbW 2222223).map
      (fun p => p.1.audit_logs) = .ok dbW.audit_logs :=
  C5_queries_write_no_audit dbW none 2222223 (by decide)

/-- C6 counterexample: the claim as stated is false — the inverted
range start="2025-01-11" > end="2025-01-10" on
`consultar_registros_filtrados` raises nothing and returns a normal
(empty) result instead of a ValidationError. -/
theorem C6_counterexample :
    consultar_registros_filtrados dbW (some "2025-01-11")
      (some "2025-01-10") none = .ok (dbW, []) := by
  decide

/-- C6 (amended): every date-range query raises a ValidationError
naming the malformed bound; the inverted-range check exists in
`consultar_almoxafire` and `consultar_epis_por_periodo` (raising before
any rows are produced) but not in `consultar_registros_filtrados`,
which returns normally on an inverted range. -/
theorem C6_date_range_errors (db : DB) (turno dfim mtv : Option String)
    (s : String) (hne : s ≠ "")
    (hbadDt : datetime_fromisoformat s = none)
    (hbadD : date_fromisoformat s = none)
    (s1 s2 : String) (d1 d2 : DateTime)
    (h1 : almoxDataIni (some s1) = .ok (some d1))
    (h2 : almoxDataFim (some s2) = .ok (some d2))
    (hinv : dtKey d2 < dtKey d1)
    (t1 t2 : String) (e1 e2 : PyDate)
    (he1 : epiDataBound (some t1) "data_ini inválida (use YYYY-MM-DD)" =
      .ok (some e1))
    (he2 : epiDataBound (some t2) "data_fim inválida (use YYYY-MM-DD)" =
      .ok (some e2))
    (hinvE : dateKey e2 < dateKey e1)
    (u1 u2 : String) (g1 g2 : DateTime)
    (hg1 : filtroDataIni (some u1) = .ok (some g1))
    (hg2 : filtroDataFim (some u2) = .ok (some g2)) :
    consultar_registros_filtrados db (some s) dfim mtv =
      .error "data_ini inválida (use YYYY-MM-DD)" ∧
    consultar_registros_filtrados db none (some s) mtv =
      .error "data_fim inválida (use YYYY-MM-DD)" ∧
    consultar_almoxafire db turno (some s) dfim =
      .error "data_ini inválida (use YYYY-MM-DD)" ∧
    consultar_almoxafire db turno none (some s) =
      .error "data_fim inválida (use YYYY-MM-DD)" ∧
    consultar_epis_por_periodo db (some s) dfim =
      .error "data_ini inválida (use YYYY-MM-DD)" ∧
    consultar_epis_por_periodo db none (some s) =
      .error "data_fim inválida (use YYYY-MM-DD)" ∧
    consultar_almoxafire db turno (some s1) (some s2) =
      .error "Período inválido: data inicial maior que a final" ∧
    consultar_epis_por_periodo db (some t1) (some t2) =
      .error "Período inválido: data inicial maior que a final" ∧
    ∃ rows, consultar_registros_filtrados db (some u1) (some u2) none =
      .ok (db, rows) := by
  have hfi : filtroDataIni (some s) =
      .error "data_ini inválida (use YYYY-MM-DD)" := by
    unfold filtroDataIni
    simp only []
    rw [if_pos hne, hbadDt]
  have hff : filtroDataFim (some s) =
      .error "data_fim inválida (use YYYY-MM-DD)" := by
    unfold filtroDataFim
    simp only []
    rw [if_pos hne, hbadDt]
  have hai : almoxDataIni (some s) =
      .error "data_ini inválida (use YYYY-MM-DD)" := by
    unfold almoxDataIni
    simp only []
    rw [if_pos hne, hbadDt]
  have haf : almoxDataFim (some s) =
      .error "data_fim inválida (use YYYY-MM-DD)" := by
    unfold almoxDataFim
    simp only []
    rw [if_pos hne, hbadDt]
  have hei : ∀ msg, epiDataBound (some s) msg = .error msg := by
    intro msg
    unfold epiDataBound
    simp only []
    rw [if_pos hne, hbadD]
  refine ⟨?_, ?_, ?_, ?_, ?_, ?_, ?_, ?_, ?_⟩
  · unfold consultar_registros_filtrados
    rw [hfi]
  · unfold consultar_registros_filtrados
    rw [hff]
    try rfl
  · unfold consultar_almoxafire
    rw [hai]
  · unfold consultar_almoxafire
    rw [haf]
    try rfl
  · unfold consultar_epis_por_periodo
    rw [hei]
  · unfold consultar_epis_por_periodo
    rw [hei]
    try rfl
  · unfold consultar_almoxafire
    rw [h1, h2]
    simp only []
    have hpi : periodoInvalido (some d1) (some d2) = true := by
      simp [periodoInvalido, hinv]
    rw [hpi]
    try rfl
  · unfold consultar_epis_por_periodo
    rw [he1, he2]
    simp only []
    have hpi : periodoInvalidoData (some e1) (some e2) = true := by
      simp [periodoInvalidoData, hinvE]
    rw [hpi]
    try rfl
  · unfold consultar_registros_filtrados
    rw [hg1, hg2]
    exact ⟨_, rfl⟩

/-- C6 witness: the malformed bound "10/01/2025" and the inverted pair
("2025-01-11", "2025-01-10") exercise both halves of the amended
claim. -/
theorem C6_date_range_errors_witness :
    consultar_almoxafire dbW none (some "2025-01-11")
      (some "2025-01-10") =
      .error "Período inválido: data inicial maior que a final" ∧
    consultar_epis_por_periodo dbW (some "10/01/2025") none =
      .error "data_ini inválida (use YYYY-MM-DD)" ∧
    ∃ rows, consultar_registros_filtrados dbW (some "2025-01-11")
      (some "2025-01-10") none = .ok (dbW, rows) := by
  have h := C6_date_range_errors dbW none none none "10/01/2025"
    (by decide) (by decide) (by decide)
    "2025-01-11" "2025-01-10" ⟨2025, 1, 11, 0, 0, 0, 0⟩
    ⟨2025, 1, 10, 23, 59, 59, 999999⟩ (by decide) (by decide) (by decide)
    "2025-01-11" "2025-01-10" ⟨2025, 1, 11⟩ ⟨2025, 1, 10⟩ (by decide)
    (by decide) (by decide)
    "2025-01-11" "2025-01-10" ⟨2025, 1, 11, 0, 0, 0, 0⟩
    ⟨2025, 1, 10, 23, 59, 59, 0⟩ (by decide) (by decide)
  exact ⟨h.2.2.2.2.2.2.1, h.2.2.2.2.1, h.2.2.2.2.2.2.2.2⟩

/-- C7 counterexample: the claim as stated is false —
`salvar_registro` with quantidade = 0 raises nothing, persists the row
and returns the generated id 4 (with the audit entry appended as on any
successful insert). -/
theorem C7_counterexample :
    salvar_registro cuAlice dtNow false dbW 2222223 0 "motivo" "setor" =
      ({ dbW with
          registros := dbW.registros ++
            [⟨4, 2222223, 0, "motivo", "setor", some "alice", some 2,
              dtNow⟩],
          next_registro_id := 5,
          audit_logs := dbW.audit_logs ++
            [⟨2, some "alice", "Bloqueado", "input", dtNow⟩],
          next_audit_id := 3 }, 4) := by
  decide

/-- C7 (amended): `salvar_almoxafire` (representative of the validating
inserts) raises a ValidationError on a non-positive quantidade and
persists nothing, while `salvar_registro` performs no field validation:
it always persists the supplied fields verbatim and returns the
generated id. -/
theorem C7_insert_validation (cu : CurrentUser) (now : DateTime)
    (fail : Bool) (db : DB) (setor turno : String) (matricula : Int)
    (resp ins : String) (q : Int) (obs : Option String) (hq : q ≤ 0)
    (item qt : Int) (motivo setorR : String) :
    salvar_almoxafire cu now fail db setor turno matricula resp ins q
        obs = .error "Campos obrigatórios ausentes em Almoxafire" ∧
    (salvar_registro cu now fail db item qt motivo setorR).2 =
      db.next_registro_id ∧
    (salvar_registro cu now fail db item qt motivo setorR).1.registros =
      db.registros ++ [⟨db.next_registro_id, item, qt, motivo, setorR,
        cu.username, cu.user_id, now⟩] := by
  refine ⟨?_, rfl, ?_⟩
  · unfold salvar_almoxafire
    simp only []
    rw [if_pos (Or.inr (Or.inr (Or.inr (Or.inr (Or.inl hq)))))]
  · unfold salvar_registro
    simp only []
    rw [auditoriaSilenciosa_registros]

/-- C7 witness: the amended claim at quantidade = 0 on the concrete
database. -/
theorem C7_insert_validation_witness :
    salvar_almoxafire cuAlice dtNow false dbW "S" "T" 1 "R" "I" 0 none =
      .error "Campos obrigatórios ausentes em Almoxafire" ∧
    (salvar_registro cuAlice dtNow false dbW 2222223 0 "motivo"
      "setor").2 = dbW.next_registro_id := by
  have h := C7_insert_validation cuAlice dtNow false dbW "S" "T" 1 "R"
    "I" 0 none (by decide) 2222223 0 "motivo" "setor"
  exact ⟨h.1, h.2.1⟩

/-- C8: a 10-character end bound is widened to 23:59:59 of that day and
both bounds are inclusive — a record is returned exactly when its
`created_at` is at most the widened bound; in the concrete scenario,
the single-day range 2025-01-10..2025-01-10 returns the record created
at 2025-01-10T23:59:59 and not the one created at
2025-01-11T00:00:01. -/
theorem C8_end_of_day_inclusive (db : DB) (s : String) (d : PyDate)
    (hlen : s.data.length = 10) (hp : date_fromisoformat s = some d)
    (rows : List Registro)
    (hq : consultar_registros_filtrados db none (some s) none =
      .ok (db, rows)) (r : Registro) :
    filtroDataFim (some s) =
      .ok (some ⟨d.year, d.month, d.day, 23, 59, 59, 0⟩) ∧
    (r ∈ rows ↔ r ∈ db.registros ∧
      dtKey r.created_at ≤ dtKey ⟨d.year, d.month, d.day, 23, 59, 59, 0⟩) ∧
    consultar_registros_filtrados dbW (some "2025-01-10")
      (some "2025-01-10") none = .ok (dbW, [regA]) := by
  have hne : s ≠ "" := by
    intro h
    rw [h] at hlen
    simp at hlen
  have hdt : datetime_fromisoformat s =
      some ⟨d.year, d.month, d.day, 0, 0, 0, 0⟩ := by
    unfold datetime_fromisoformat
    rw [if_pos hlen, hp]
    rfl
  have hff : filtroDataFim (some s) =
      .ok (some ⟨d.year, d.month, d.day, 23, 59, 59, 0⟩) := by
    unfold filtroDataFim
    simp only []
    rw [if_pos hne, hdt]
    simp only []
    rw [if_pos hlen]
  refine ⟨hff, ?_, by decide⟩
  unfold consultar_registros_filtrados at hq
  rw [hff] at hq
  simp only [bind, Except.bind] at hq
  injection hq with hpair
  injection hpair with h1 h2
  rw [← h2, mem_sortDescBy, List.mem_filter]
  simp

/-- C8 witness: the single-day scenario from the claim, on the concrete
database. -/
theorem C8_end_of_day_inclusive_witness :
    consultar_registros_filtrados dbW (some "2025-01-10")
      (some "2025-01-10") none = .ok (dbW, [regA]) :=
  (C8_end_of_day_inclusive dbW "2025-01-10" ⟨2025, 1, 10⟩ (by decide)
    (by decide) [regA, regC] (by decide) regA).2.2

/-- C9: an administrator resetting another administrator's password
gets a PermissionDenied-class error (resetting their own succeeds), and
deleting any non-USUARIO account gets the same kind of error; an error
result leaves the persisted state unchanged (the session closes without
commit). -/
theorem C9_admin_carveouts (cu : CurrentUser) (db : DB)
    (target nova : String) (u : User)
    (hadm : cu.tipo = some "ADMINISTRADOR") (hnova : nova ≠ "")
    (hfind : findUser db target = some u)
    (hu : u.tipo = "ADMINISTRADOR") (target2 : String) (u2 : User)
    (hfind2 : findUser db target2 = some u2)
    (hu2 : u2.tipo ≠ "USUARIO") :
    (some target ≠ cu.username →
      redefinir_senha_usuario cu db target nova =
        .error "Não é permitido redefinir senha de outro ADMINISTRADOR") ∧
    (some target = cu.username →
      ∃ db', redefinir_senha_usuario cu db target nova =
        .ok (db', true)) ∧
    excluir_usuario cu db target2 =
      .error "Só é permitido excluir usuários do tipo USUARIO" := by
  refine ⟨?_, ?_, ?_⟩
  · intro hdiff
    unfold redefinir_senha_usuario
    rw [if_neg hnova, if_neg (by simp [hadm]), hfind]
    simp only []
    rw [if_pos ⟨hu, hdiff⟩]
  · intro hsame
    refine ⟨{ db with usuarios := db.usuarios.map fun x => if x.username = target then { x with senha_hash := hash_senha nova } else x }, ?_⟩
    unfold redefinir_senha_usuario
    rw [if_neg hnova, if_neg (by simp [hadm]), hfind]
    simp only []
    rw [if_neg (by simp [hsame])]
  · unfold excluir_usuario
    rw [if_neg (by simp [hadm]), hfind2]
    simp only []
    rw [if_pos hu2]

/-- C9 witness: admin `carol` targeting the other admin `dave` for a
password reset and for deletion; both raise. -/
theorem C9_admin_carveouts_witness :
    redefinir_senha_usuario cuCarol dbW "dave" "novasenha" =
      .error "Não é permitido redefinir senha de outro ADMINISTRADOR" ∧
    excluir_usuario cuCarol dbW "dave" =
      .error "Só é permitido excluir usuários do tipo USUARIO" := by
  have h := C9_admin_carveouts cuCarol dbW "dave" "novasenha" userDave
    (by decide) (by decide) (by decide) (by decide) "dave" userDave
    (by decide) (by decide)
  exact ⟨h.1 (by decide), h.2.2⟩

/-- C10: deleting a USUARIO account cascades to the Blocked-Item
Records — every `registros` row whose `usuario_id` references the
deleted user is removed (the `all,delete-orphan` relationship), rows of
other users survive, and the user row itself is gone. -/
theorem C10_cascade_delete (cu : CurrentUser) (db : DB) (uname : String)
    (u : User) (hadm : cu.tipo = some "ADMINISTRADOR")
    (hfind : findUser db uname = some u) (hu : u.tipo = "USUARIO") :
    ∃ db', excluir_usuario cu db uname = .ok (db', true) ∧
      (∀ r, r ∈ db'.registros → r.usuario_id ≠ some u.id) ∧
      (∀ r, r ∈ db.registros → r.usuario_id ≠ some u.id →
        r ∈ db'.registros) ∧
      (∀ v, v ∈ db'.usuarios → v.id ≠ u.id) := by
  refine ⟨{ db with usuarios := db.usuarios.filter fun x => x.id ≠ u.id, registros := db.registros.filter fun x => x.usuario_id ≠ some u.id }, ?_, ?_, ?_, ?_⟩
  · unfold excluir_usuario
    rw [if_neg (by simp [hadm]), hfind]
    simp only []
    rw [if_neg (by simp [hu])]
  · intro r hr
    have h := (List.mem_filter.mp hr).2
    simpa using h
  · intro r hr hne
    exact List.mem_filter.mpr ⟨hr, by simpa using hne⟩
  · intro v hv
    have h := (List.mem_filter.mp hv).2
    simpa using h

/-- C10 witness: admin `carol` deletes USUARIO `alice`; `alice`'s
blocked-item rows are gone, `bob`'s row survives, `alice`'s user row is
gone. -/
theorem C10_cascade_delete_witness :
    ∃ db', excluir_usuario cuCarol dbW "alice" = .ok (db', true) ∧
      (∀ r, r ∈ db'.registros → r.usuario_id ≠ some userAlice.id) ∧
      (∀ r, r ∈ dbW.registros → r.usuario_id ≠ some userAlice.id →
        r ∈ db'.registros) ∧
      (∀ v, v ∈ db'.usuarios → v.id ≠ userAlice.id) :=
  C10_cascade_delete cuCarol dbW "alice" userAlice (by decide)
    (by decide) (by decide)

end SqlApp
